import Mathlib

/-!
Shallow embedding of the `upswing` hotel-management service skeleton:
the response helpers of `src/utilities/response.py`, the resource
container of `src/resources/objects.py`, and the bootstrap of
`src/main.py`, together with theorems settling the specification
claims about them.
-/

namespace Upswing

/-! ### JSON values

Python dict/str/bool/int payloads are modelled as a small JSON value
type; a dict is an association list keeping insertion order, as Python
dicts do. -/

inductive Json where
  | str : String → Json
  | bool : Bool → Json
  | num : Nat → Json
  | obj : List (String × Json) → Json

/-- Look up a key among the pairs of a JSON object, first match wins. -/
def lookupPairs (k : String) : List (String × Json) → Option Json
  | [] => none
  | (k2, v) :: rest => if k2 = k then some v else lookupPairs k rest

/-- Look up a key in a JSON value (none on non-objects). -/
def Json.lookup (k : String) : Json → Option Json
  | .obj kvs => lookupPairs k kvs
  | _ => none

/-- The keys of a JSON object, in order (empty for non-objects). -/
def Json.keys : Json → List String
  | .obj kvs => kvs.map Prod.fst
  | _ => []

/-! ### Response helpers (`src/utilities/response.py`)

The error-class helpers unconditionally `raise HTTPException(...)`;
each is embedded as the function computing the exception value it
raises. The success-class helpers return their envelope as a plain
value. Default parameter values are taken verbatim from the Python
signatures. -/

/-- A raised `fastapi.HTTPException`: status code plus detail payload. -/
structure HTTPException where
  status_code : Nat
  detail : Json

/-- A framework response value, as built by `fastapi.Response`. -/
structure HttpResponse where
  status_code : Nat
  body : Option Json

def HTTP_204_NO_CONTENT : Nat := 204
def HTTP_400_BAD_REQUEST : Nat := 400
def HTTP_401_UNAUTHORIZED : Nat := 401
def HTTP_404_NOT_FOUND : Nat := 404
def HTTP_409_CONFLICT : Nat := 409
def HTTP_500_INTERNAL_SERVER_ERROR : Nat := 500

/-- `response_ok`: builds the standard envelope and returns it. -/
def response_ok (message : String := "Ok") (success : Bool := true)
    (data : Json := Json.obj []) (paginator : Json := Json.obj []) : Json :=
  Json.obj
    [("message", Json.str message), ("success", Json.bool success),
     ("data", data), ("paginator", paginator)]

/-- `response_created`: builds the standard envelope and returns it. -/
def response_created (message : String := "Resource created") (success : Bool := true)
    (data : Json := Json.obj []) (paginator : Json := Json.obj []) : Json :=
  Json.obj
    [("message", Json.str message), ("success", Json.bool success),
     ("data", data), ("paginator", paginator)]

/-- `response_no_content`: returns `Response(status_code=204)`, no body. -/
def response_no_content : HttpResponse :=
  { status_code := HTTP_204_NO_CONTENT, body := none }

/-- `response_conflict`: raises 409 with a two-field payload; the
`success` parameter is ignored, the payload hardcodes `False`. -/
def response_conflict (message : String := "Conflict")
    (_success : Bool := false) : HTTPException :=
  { status_code := HTTP_409_CONFLICT,
    detail := Json.obj
      [("message", Json.str message), ("success", Json.bool false)] }

/-- `response_bad_request`: raises 400 with the four-field envelope,
the `success` parameter copied into the payload. -/
def response_bad_request (message : String := "Bad Request") (success : Bool := false)
    (data : Json := Json.obj []) (paginator : Json := Json.obj []) : HTTPException :=
  { status_code := HTTP_400_BAD_REQUEST,
    detail := Json.obj
      [("message", Json.str message), ("success", Json.bool success),
       ("data", data), ("paginator", paginator)] }

/-- `response_too_many_active_sessions`: raises 400 with a two-field
payload hardcoding `success=False`. -/
def response_too_many_active_sessions
    (message : String := "Multiple Sessions are active") : HTTPException :=
  { status_code := HTTP_400_BAD_REQUEST,
    detail := Json.obj
      [("message", Json.str message), ("success", Json.bool false)] }

/-- `response_unauthenticate`: raises 401 with the four-field envelope. -/
def response_unauthenticate (message : String := "Unauthenticate") (success : Bool := false)
    (data : Json := Json.obj []) (paginator : Json := Json.obj []) : HTTPException :=
  { status_code := HTTP_401_UNAUTHORIZED,
    detail := Json.obj
      [("message", Json.str message), ("success", Json.bool success),
       ("data", data), ("paginator", paginator)] }

/-- `response_not_found`: raises 404 with the four-field envelope. -/
def response_not_found (message : String := "Not Found") (success : Bool := false)
    (data : Json := Json.obj []) (paginator : Json := Json.obj []) : HTTPException :=
  { status_code := HTTP_404_NOT_FOUND,
    detail := Json.obj
      [("message", Json.str message), ("success", Json.bool success),
       ("data", data), ("paginator", paginator)] }

/-- `response_internal_server_error`: raises 500 with the four-field
envelope. -/
def response_internal_server_error (message : String := "Internal server error")
    (success : Bool := false) (data : Json := Json.obj [])
    (paginator : Json := Json.obj []) : HTTPException :=
  { status_code := HTTP_500_INTERNAL_SERVER_ERROR,
    detail := Json.obj
      [("message", Json.str message), ("success", Json.bool success),
       ("data", data), ("paginator", paginator)] }

/-- `response_sesion_not_available`: raises 404 with a two-field
payload hardcoding `success=False`. -/
def response_sesion_not_available
    (message : String := "Session not available") : HTTPException :=
  { status_code := HTTP_404_NOT_FOUND,
    detail := Json.obj
      [("message", Json.str message), ("success", Json.bool false)] }

/-! ### Resource container (`src/resources/objects.py`)

Python code either returns a value or raises an exception; both
outcomes are captured by `PyResult`. The outside world (the MongoDB
server, the RabbitMQ broker) is abstracted into an `Env` recording the
outcome of each connection attempt; logging is modelled as a list of
emitted log entries. -/

/-- Python exception values that matter to this model. -/
inductive PyError where
  /-- `pymongo.errors.ConnectionFailure`, the only class the MongoDB
  `except` clause catches. -/
  | connectionFailure : String → PyError
  /-- `AttributeError` from dereferencing an attribute of `None`. -/
  | noneTypeAttributeError : String → PyError
  /-- An exception raised while closing the broker connection. -/
  | brokerCloseError : String → PyError
  /-- Any other exception. -/
  | otherError : String → PyError
  deriving DecidableEq, Repr

/-- The message text each exception renders to, as in `f"... {e}"`. -/
def PyError.msg : PyError → String
  | .connectionFailure m => m
  | .noneTypeAttributeError attr =>
      "NoneType object has no attribute " ++ attr
  | .brokerCloseError m => m
  | .otherError m => m

/-- Outcome of running a piece of Python code: a value or a raised
exception. -/
inductive PyResult (α : Type) where
  | ok : α → PyResult α
  | raised : PyError → PyResult α
  deriving DecidableEq, Repr

inductive LogLevel where
  | info
  | error
  | warning
  deriving DecidableEq, Repr

structure LogEntry where
  level : LogLevel
  text : String
  deriving DecidableEq, Repr

/-- Handle to a `pymongo.MongoClient`. Closing it does not raise. -/
structure MongoClient where
  uri : String
  deriving DecidableEq, Repr

/-- Handle to a selected database, `client[name]`: it keeps a `client`
attribute, as used by `self.database.client.close()`. -/
structure MongoDatabase where
  client : MongoClient
  name : String
  deriving DecidableEq, Repr

/-- Handle to a `pika.BlockingConnection`. `channelOutcome` records
whether the `channel()` call made right after the connection is
established raises, and with what message; `closeOutcome` records the
same for a later `close()` call. -/
structure BrokerConnection where
  channelOutcome : Option String
  closeOutcome : Option String
  deriving DecidableEq, Repr

/-- Handle to a channel obtained from `connection.channel()`. -/
structure BrokerChannel where
  ofConnection : BrokerConnection
  deriving DecidableEq, Repr

/-- External-world outcomes of the connection attempts made by the
container's class method: the MongoDB client construction, and the
`pika` credential/parameter construction up to and including
`BlockingConnection(parameters)`. A raise in the later `channel()`
call is carried by the connection handle's `channelOutcome`, because
by then the connection is already assigned. -/
structure Env where
  mongoResult : PyResult MongoClient
  brokerResult : PyResult BrokerConnection
  deriving DecidableEq, Repr

/-- The `AppResources` dataclass: every field defaults to `None`. -/
structure AppResources where
  database : Option MongoDatabase := none
  channel : Option BrokerChannel := none
  connection : Option BrokerConnection := none
  paho : Option Unit := none
  celery_broker : Option Unit := none
  celery_backend : Option Unit := none
  deriving DecidableEq, Repr

/-- The RabbitMQ block of the container's class method. The whole
attempt sits in `try/except Exception`, so every broker failure is
caught and logged, but the block assigns in two steps: line 47 sets
`resources.connection`, then line 48 calls
`resources.connection.channel()`. A raise before the connection is
established leaves both handles unset; a raise inside `channel()`
leaves `connection` set and only `channel` unset. -/
def brokerPhase (env : Env) (resources : AppResources)
    (logs : List LogEntry) : AppResources × List LogEntry :=
  match env.brokerResult with
  | .ok conn =>
      match conn.channelOutcome with
      | none =>
          ({ resources with
              connection := some conn,
              channel := some { ofConnection := conn } },
           logs ++ [⟨.info, "RabbitMQ Connected!"⟩])
      | some m =>
          ({ resources with connection := some conn },
           logs ++ [⟨.error, "RabbitMQ Connection Failed: " ++ m⟩])
  | .raised e =>
      (resources,
       logs ++ [⟨.error, "RabbitMQ Connection Failed: " ++ PyError.msg e⟩])

namespace AppResources

/-- The source's `AppResources.initialize` class method (the name is a
reserved word here, hence `init`): builds a fresh container, then runs
the MongoDB attempt (its `except` clause catches only
`pymongo.errors.ConnectionFailure`; any other exception propagates out)
and the RabbitMQ attempt, and returns the container. -/
def init (env : Env) : PyResult (AppResources × List LogEntry) :=
  let resources : AppResources := {}
  match env.mongoResult with
  | .ok client =>
      .ok (brokerPhase env
        { resources with database := some { client := client, name := "hotel_users" } }
        [⟨.info, "MongoDB Connected!"⟩])
  | .raised (.connectionFailure m) =>
      .ok (brokerPhase env resources
        [⟨.error, "MongoDB Connection Failed: " ++ m⟩])
  | .raised e => .raised e

/-- `AppResources.destroy`: runs `self.database.client.close()` with no
`None` guard — an unset database handle raises `AttributeError` — then
closes the broker connection only if it is not `None`, logging a
warning otherwise. -/
def destroy (self : AppResources) : PyResult (List LogEntry) :=
  match self.database with
  | none => .raised (.noneTypeAttributeError "client")
  | some _db =>
      let logs := [(⟨.info, "MongoDB Connection Closed!"⟩ : LogEntry)]
      match self.connection with
      | some conn =>
          match conn.closeOutcome with
          | some m => .raised (.brokerCloseError m)
          | none => .ok (logs ++ [⟨.info, "RabbitMQ Connection Closed!"⟩])
      | none =>
          .ok (logs ++
            [⟨.warning, "RabbitMQ Connection object is None, skipping closing."⟩])

end AppResources

/-! ### Application bootstrap (`src/main.py`) -/

/-- The startup half of the `lifespan` hook: call the container's
class method inside `try/except`; on an exception, log it and re-raise
the same exception; on success, install the container and log the
started message. -/
def lifespanStartup (env : Env) : List LogEntry × PyResult AppResources :=
  match AppResources.init env with
  | .raised e =>
      ([⟨.error, "Error occurred while initializing the objects: " ++ PyError.msg e⟩],
       .raised e)
  | .ok (resources, logs) =>
      (logs ++ [⟨.info, "Hotal management Application started successfully."⟩],
       .ok resources)

/-- The literal dict returned by the root handler. -/
def rootBody : Json :=
  Json.obj
    [("App", Json.str "Hotal management API"),
     ("version", Json.str "1.0"),
     ("status", Json.str "healthy")]

/-- `GET /`: the handler takes no inputs and reads no state; FastAPI
wraps its returned dict in a 200 response. The container argument
records that the outcome is the same whatever state the resource
container is in. -/
def rootEndpoint (_resources : AppResources) : HttpResponse :=
  { status_code := 200, body := some rootBody }

/-! ### JSON serialization

Modelled from the spec: the repository serializes the response
envelope with the platform JSON encoder (not code under `src/`); the
spec asserts the envelope round-trips through JSON serialization
without loss. The encoder below prints the standard compact JSON
grammar over `Json` values, and the parser reads it back; both are
fuel-indexed structural recursions so that they evaluate inside the
kernel. -/

/-- Decimal digits of a natural number, most significant first. -/
def natDigits (fuel n : Nat) : List Char :=
  match fuel with
  | 0 => []
  | fuel + 1 =>
      if n < 10 then [Char.ofNat (48 + n)]
      else natDigits fuel (n / 10) ++ [Char.ofNat (48 + n % 10)]

mutual

/-- Modelled from the spec: JSON encoding of a value, compact form. -/
def encodeValue (fuel : Nat) (j : Json) : List Char :=
  match fuel with
  | 0 => []
  | fuel + 1 =>
      match j with
      | .str s => '"' :: s.data ++ ['"']
      | .bool b => (if b then "true" else "false").data
      | .num n => natDigits (n + 1) n
      | .obj kvs => '\x7b' :: encodeMembers fuel kvs ++ ['\x7d']

/-- Modelled from the spec: JSON encoding of an object's members. -/
def encodeMembers (fuel : Nat) (kvs : List (String × Json)) : List Char :=
  match fuel with
  | 0 => []
  | fuel + 1 =>
      match kvs with
      | [] => []
      | [(k, v)] => '"' :: k.data ++ ['"', ':'] ++ encodeValue fuel v
      | (k, v) :: rest =>
          '"' :: k.data ++ ['"', ':'] ++ encodeValue fuel v ++
            ',' :: encodeMembers fuel rest

end

/-- Read characters up to the closing quote of a string literal. -/
def takeStringBody : List Char → Option (List Char × List Char)
  | [] => none
  | c :: cs =>
      if c = '"' then some ([], cs)
      else
        match takeStringBody cs with
        | some (s, rest) => some (c :: s, rest)
        | none => none

/-- Split a leading run of decimal digits from the input. -/
def takeDigits : List Char → List Char × List Char
  | [] => ([], [])
  | c :: cs =>
      if c.isDigit then
        let p := takeDigits cs
        (c :: p.1, p.2)
      else ([], c :: cs)

/-- Numeric value of a digit list, most significant first. -/
def natFromDigits (ds : List Char) : Nat :=
  ds.foldl (fun acc c => acc * 10 + (c.toNat - 48)) 0

mutual

/-- Modelled from the spec: parse one JSON value, returning it with
the unconsumed input. -/
def parseValue (fuel : Nat) (cs : List Char) : Option (Json × List Char) :=
  match fuel with
  | 0 => none
  | fuel + 1 =>
      match cs with
      | '"' :: rest =>
          match takeStringBody rest with
          | some (s, rest2) => some (.str (String.mk s), rest2)
          | none => none
      | 't' :: 'r' :: 'u' :: 'e' :: rest => some (.bool true, rest)
      | 'f' :: 'a' :: 'l' :: 's' :: 'e' :: rest => some (.bool false, rest)
      | '\x7b' :: '\x7d' :: rest => some (.obj [], rest)
      | '\x7b' :: rest =>
          match parseMembers fuel rest with
          | some (kvs, '\x7d' :: rest2) => some (.obj kvs, rest2)
          | _ => none
      | c :: rest =>
          if c.isDigit then
            let p := takeDigits (c :: rest)
            some (.num (natFromDigits p.1), p.2)
          else none
      | [] => none

/-- Modelled from the spec: parse the comma-separated members of a
JSON object (at least one member). -/
def parseMembers (fuel : Nat) (cs : List Char) :
    Option (List (String × Json) × List Char) :=
  match fuel with
  | 0 => none
  | fuel + 1 =>
      match cs with
      | '"' :: rest =>
          match takeStringBody rest with
          | some (k, ':' :: rest2) =>
              match parseValue fuel rest2 with
              | some (v, ',' :: rest3) =>
                  match parseMembers fuel rest3 with
                  | some (kvs, rest4) => some ((String.mk k, v) :: kvs, rest4)
                  | none => none
              | some (v, rest3) => some ([(String.mk k, v)], rest3)
              | none => none
          | _ => none
      | _ => none

end

/-- Modelled from the spec: JSON-encode a value to a string. -/
def Json.encode (j : Json) : String :=
  String.mk (encodeValue 64 j)

/-- Modelled from the spec: decode a string as a single JSON value,
requiring the whole input to be consumed. -/
def Json.decode (s : String) : Option Json :=
  match parseValue 64 s.data with
  | some (j, []) => some j
  | _ => none

/-! ### Concrete instances used by witnesses -/

/-- An environment where the MongoDB attempt raises
`ConnectionFailure` and the broker connects. -/
def envDbFail : Env :=
  { mongoResult := .raised (.connectionFailure "down"),
    brokerResult := .ok { channelOutcome := none, closeOutcome := none } }

/-- An environment where MongoDB connects and the broker attempt
raises before the connection is established. -/
def envBrokerFail : Env :=
  { mongoResult := .ok { uri := "mongodb://localhost:27017/" },
    brokerResult := .raised (.otherError "refused") }

/-- A broker connection whose `channel()` call raises. -/
def connChanFail : BrokerConnection :=
  { channelOutcome := some "channel refused", closeOutcome := none }

/-- An environment where MongoDB connects, the broker connection is
established, and the subsequent `channel()` call raises. -/
def envChannelFail : Env :=
  { mongoResult := .ok { uri := "mongodb://localhost:27017/" },
    brokerResult := .ok connChanFail }

/-- An environment where the MongoDB attempt raises an exception that
is not a `ConnectionFailure`, so the class method itself raises. -/
def envFatal : Env :=
  { mongoResult := .raised (.otherError "boom"),
    brokerResult := .ok { channelOutcome := none, closeOutcome := none } }

/-- The database handle obtained from a successful MongoDB attempt. -/
def dbHandle : MongoDatabase :=
  { client := { uri := "mongodb://localhost:27017/" }, name := "hotel_users" }

/-- A container with a database handle but no broker connection: the
state the class method leaves when the broker attempt fails before
the connection is established. -/
def resourcesNoBroker : AppResources :=
  { database := some dbHandle }

/-- The container the class method returns under `envChannelFail`: the
connection handle is set, the channel handle is not. -/
def resourcesChanFail : AppResources :=
  { database := some dbHandle, connection := some connChanFail }

/-- A freshly constructed container: every handle unset. -/
def emptyResources : AppResources := {}

/-- The envelope named by the round-trip property:
`response_ok(message="x", data={"a":1})`. -/
def claim9Envelope : Json :=
  response_ok "x" true (Json.obj [("a", Json.num 1)]) (Json.obj [])

/-! ## Theorems settling the claims -/

/-- Claim C1, counterexample: the claim as stated — that among the
error helpers only the "too many sessions" and "session not available"
variants carry a payload smaller than the four-field envelope — fails
for `response_conflict`, whose payload at default arguments has exactly
the keys `message` and `success` and lacks `data` and `paginator`. -/
theorem claim1_counterexample :
    (response_conflict : HTTPException).status_code = 409 ∧
    Json.keys (response_conflict : HTTPException).detail = ["message", "success"] ∧
    ¬ Json.keys (response_conflict : HTTPException).detail
        = ["message", "success", "data", "paginator"] := by
  refine ⟨rfl, rfl, ?_⟩
  decide

/-- Claim C1 (amended): at default arguments, the five standard error
helpers raise with status codes 400, 401, 404, 409 and 500; the 400,
401, 404 and 500 helpers carry the exact four-field envelope with
`success=false`, while `response_conflict` — like the "too many
sessions" and "session not available" variants — carries the smaller
two-field payload `{message, success=false}`. -/
theorem claim1_error_helpers :
    (response_bad_request : HTTPException) =
      { status_code := 400,
        detail := Json.obj
          [("message", Json.str "Bad Request"), ("success", Json.bool false),
           ("data", Json.obj []), ("paginator", Json.obj [])] } ∧
    (response_unauthenticate : HTTPException) =
      { status_code := 401,
        detail := Json.obj
          [("message", Json.str "Unauthenticate"), ("success", Json.bool false),
           ("data", Json.obj []), ("paginator", Json.obj [])] } ∧
    (response_not_found : HTTPException) =
      { status_code := 404,
        detail := Json.obj
          [("message", Json.str "Not Found"), ("success", Json.bool false),
           ("data", Json.obj []), ("paginator", Json.obj [])] } ∧
    (response_internal_server_error : HTTPException) =
      { status_code := 500,
        detail := Json.obj
          [("message", Json.str "Internal server error"), ("success", Json.bool false),
           ("data", Json.obj []), ("paginator", Json.obj [])] } ∧
    (response_conflict : HTTPException) =
      { status_code := 409,
        detail := Json.obj
          [("message", Json.str "Conflict"), ("success", Json.bool false)] } ∧
    (response_too_many_active_sessions : HTTPException) =
      { status_code := 400,
        detail := Json.obj
          [("message", Json.str "Multiple Sessions are active"),
           ("success", Json.bool false)] } ∧
    (response_sesion_not_available : HTTPException) =
      { status_code := 404,
        detail := Json.obj
          [("message", Json.str "Session not available"),
           ("success", Json.bool false)] } :=
  ⟨rfl, rfl, rfl, rfl, rfl, rfl, rfl⟩

/-- Claim C5, counterexample: the claim says every error helper's
payload carries `success=false` regardless of the supplied `success`
argument, but `response_bad_request` called with `success=True` puts
`true` into its payload. -/
theorem claim5_counterexample :
    Json.lookup "success"
        (response_bad_request "Bad Request" true (Json.obj []) (Json.obj [])).detail
      = some (Json.bool true) ∧
    some (Json.bool true) ≠ some (Json.bool false) := by
  refine ⟨rfl, ?_⟩
  simp

/-- Claim C5 (amended): the payload's `success` flag is hardcoded to
`false` only in `response_conflict`, `response_too_many_active_sessions`
and `response_sesion_not_available`; the 400, 401, 404 and 500 helpers
copy the caller-supplied `success` value into the payload (so at the
default `success=false` every helper's payload carries `false`). -/
theorem claim5_success_flag (message : String) (success : Bool)
    (data paginator : Json) :
    Json.lookup "success" (response_bad_request message success data paginator).detail
      = some (Json.bool success) ∧
    Json.lookup "success" (response_unauthenticate message success data paginator).detail
      = some (Json.bool success) ∧
    Json.lookup "success" (response_not_found message success data paginator).detail
      = some (Json.bool success) ∧
    Json.lookup "success" (response_internal_server_error message success data paginator).detail
      = some (Json.bool success) ∧
    Json.lookup "success" (response_conflict message success).detail
      = some (Json.bool false) ∧
    Json.lookup "success" (response_too_many_active_sessions message).detail
      = some (Json.bool false) ∧
    Json.lookup "success" (response_sesion_not_available message).detail
      = some (Json.bool false) :=
  ⟨rfl, rfl, rfl, rfl, rfl, rfl, rfl⟩

/-- Claim C7: `GET /` returns status 200 with the literal liveness
body, and the outcome is identical for any two resource-container
states. -/
theorem claim7_root_liveness (r r2 : AppResources) :
    (rootEndpoint r).status_code = 200 ∧
    (rootEndpoint r).body = some (Json.obj
      [("App", Json.str "Hotal management API"),
       ("version", Json.str "1.0"),
       ("status", Json.str "healthy")]) ∧
    rootEndpoint r = rootEndpoint r2 :=
  ⟨rfl, rfl, rfl⟩

/-- Claim C8: `response_ok` and `response_created` return the
four-field envelope as a plain value for all inputs, and at default
arguments the fields are `message="Ok"` / `"Resource created"`,
`success=true`, `data={}`, `paginator={}`. -/
theorem claim8_success_helpers (message : String) (success : Bool)
    (data paginator : Json) :
    response_ok message success data paginator =
      Json.obj [("message", Json.str message), ("success", Json.bool success),
                ("data", data), ("paginator", paginator)] ∧
    response_created message success data paginator =
      Json.obj [("message", Json.str message), ("success", Json.bool success),
                ("data", data), ("paginator", paginator)] ∧
    (response_ok : Json) =
      Json.obj [("message", Json.str "Ok"), ("success", Json.bool true),
                ("data", Json.obj []), ("paginator", Json.obj [])] ∧
    (response_created : Json) =
      Json.obj [("message", Json.str "Resource created"), ("success", Json.bool true),
                ("data", Json.obj []), ("paginator", Json.obj [])] :=
  ⟨rfl, rfl, rfl, rfl⟩

/-- Claim C9: the envelope built by `response_ok(message="x",
data={"a":1})` round-trips through JSON encoding and decoding without
loss, and its four fields carry the given values. -/
theorem claim9_envelope_roundtrip :
    Json.decode (Json.encode claim9Envelope) = some claim9Envelope ∧
    Json.lookup "message" claim9Envelope = some (Json.str "x") ∧
    Json.lookup "success" claim9Envelope = some (Json.bool true) ∧
    Json.lookup "data" claim9Envelope = some (Json.obj [("a", Json.num 1)]) ∧
    Json.lookup "paginator" claim9Envelope = some (Json.obj []) :=
  ⟨rfl, rfl, rfl, rfl, rfl⟩

/-- Claim C10: `response_no_content` returns a response tagged with
status 204 and no body. -/
theorem claim10_no_content :
    response_no_content.status_code = 204 ∧ response_no_content.body = none :=
  ⟨rfl, rfl⟩

/-- Claim C2: when the MongoDB connection attempt raises
`ConnectionFailure`, the class method still returns a container: the
failure is logged, the database handle stays unset, and the broker
attempt runs independently — its outcome, success or either failure
mode, is reflected in the returned container. -/
theorem claim2_db_failure_nonfatal (env : Env) (m : String)
    (h : env.mongoResult = .raised (.connectionFailure m)) :
    ∃ resources logs, AppResources.init env = .ok (resources, logs) ∧
      resources.database = none ∧
      (⟨.error, "MongoDB Connection Failed: " ++ m⟩ : LogEntry) ∈ logs ∧
      (∀ conn, env.brokerResult = .ok conn →
        resources.connection = some conn ∧
        (conn.channelOutcome = none →
          resources.channel = some { ofConnection := conn }) ∧
        (∀ cm, conn.channelOutcome = some cm → resources.channel = none)) ∧
      (∀ e, env.brokerResult = .raised e →
        resources.connection = none ∧ resources.channel = none) := by
  refine ⟨(brokerPhase env {} [⟨.error, "MongoDB Connection Failed: " ++ m⟩]).1,
          (brokerPhase env {} [⟨.error, "MongoDB Connection Failed: " ++ m⟩]).2,
          ?_, ?_, ?_, ?_, ?_⟩ <;>
    cases hb : env.brokerResult with
    | ok conn =>
        cases hco : conn.channelOutcome <;>
          simp_all [AppResources.init, brokerPhase]
    | raised e => simp_all [AppResources.init, brokerPhase]

/-- Claim C2, witness: the theorem applied to the concrete environment
whose MongoDB attempt raises `ConnectionFailure("down")`. -/
theorem claim2_witness :
    envDbFail.mongoResult = .raised (.connectionFailure "down") ∧
    (∃ resources logs, AppResources.init envDbFail = .ok (resources, logs) ∧
      resources.database = none ∧
      (⟨.error, "MongoDB Connection Failed: " ++ "down"⟩ : LogEntry) ∈ logs ∧
      (∀ conn, envDbFail.brokerResult = .ok conn →
        resources.connection = some conn ∧
        (conn.channelOutcome = none →
          resources.channel = some { ofConnection := conn }) ∧
        (∀ cm, conn.channelOutcome = some cm → resources.channel = none)) ∧
      (∀ e, envDbFail.brokerResult = .raised e →
        resources.connection = none ∧ resources.channel = none)) :=
  ⟨rfl, claim2_db_failure_nonfatal envDbFail "down" rfl⟩

/-- Claim C3, counterexample: the claim says a broker failure during
the class method leaves both broker handles unset, but when the
failure occurs in `connection.channel()` (objects.py line 48) — after
line 47 has already assigned the connection — the returned container
keeps its connection handle set, with the failure logged. -/
theorem claim3_counterexample :
    AppResources.init envChannelFail =
      .ok (resourcesChanFail,
        [⟨.info, "MongoDB Connected!"⟩,
         ⟨.error, "RabbitMQ Connection Failed: " ++ "channel refused"⟩]) ∧
    resourcesChanFail.channel = none ∧
    resourcesChanFail.connection = some connChanFail ∧
    resourcesChanFail.connection ≠ none := by
  refine ⟨rfl, rfl, rfl, ?_⟩
  simp [resourcesChanFail]

/-- Claim C3 (amended): a broker failure inside the class method is
logged and leaves the channel handle unset; the connection handle is
also left unset when the raise happens before the connection is
established, but stays set when `channel()` raises afterwards. On any
container without a broker connection, `destroy` never raises a
broker-originated error — when its database handle is set it returns
normally, logging the skip warning instead of closing. -/
theorem claim3_broker_failure_and_destroy :
    (∀ env resources logs, AppResources.init env = .ok (resources, logs) →
      (∀ e, env.brokerResult = .raised e →
        resources.channel = none ∧ resources.connection = none ∧
        (⟨.error, "RabbitMQ Connection Failed: " ++ PyError.msg e⟩ : LogEntry) ∈ logs) ∧
      (∀ conn cm, env.brokerResult = .ok conn → conn.channelOutcome = some cm →
        resources.channel = none ∧ resources.connection = some conn ∧
        (⟨.error, "RabbitMQ Connection Failed: " ++ cm⟩ : LogEntry) ∈ logs)) ∧
    (∀ resources : AppResources, resources.connection = none →
      (∀ m, AppResources.destroy resources ≠ .raised (.brokerCloseError m)) ∧
      (∀ db, resources.database = some db →
        AppResources.destroy resources =
          .ok [⟨.info, "MongoDB Connection Closed!"⟩,
               ⟨.warning, "RabbitMQ Connection object is None, skipping closing."⟩])) := by
  constructor
  · intro env resources logs hinit
    cases hm : env.mongoResult with
    | ok client =>
        constructor
        · intro e hb
          simp only [AppResources.init, hm, brokerPhase, hb, PyResult.ok.injEq,
            Prod.mk.injEq] at hinit
          obtain ⟨h1, h2⟩ := hinit
          subst h1
          subst h2
          simp
        · intro conn cm hb hco
          simp only [AppResources.init, hm, brokerPhase, hb, hco, PyResult.ok.injEq,
            Prod.mk.injEq] at hinit
          obtain ⟨h1, h2⟩ := hinit
          subst h1
          subst h2
          simp
    | raised e2 =>
        cases e2 with
        | connectionFailure m =>
            constructor
            · intro e hb
              simp only [AppResources.init, hm, brokerPhase, hb, PyResult.ok.injEq,
                Prod.mk.injEq] at hinit
              obtain ⟨h1, h2⟩ := hinit
              subst h1
              subst h2
              simp
            · intro conn cm hb hco
              simp only [AppResources.init, hm, brokerPhase, hb, hco, PyResult.ok.injEq,
                Prod.mk.injEq] at hinit
              obtain ⟨h1, h2⟩ := hinit
              subst h1
              subst h2
              simp
        | noneTypeAttributeError a => simp [AppResources.init, hm] at hinit
        | brokerCloseError m => simp [AppResources.init, hm] at hinit
        | otherError m => simp [AppResources.init, hm] at hinit
  · intro resources hconn
    constructor
    · intro m
      unfold AppResources.destroy
      cases hd : resources.database with
      | none => simp
      | some db => rw [hconn]; simp
    · intro db hdb
      unfold AppResources.destroy
      rw [hdb, hconn]
      rfl

/-- Claim C3, witness: the theorem applied to the environment whose
broker attempt raises before the connection is established, to the
environment whose `channel()` call raises, and to the container the
first one returns. -/
theorem claim3_witness :
    AppResources.init envBrokerFail =
      .ok (resourcesNoBroker,
        [⟨.info, "MongoDB Connected!"⟩,
         ⟨.error, "RabbitMQ Connection Failed: " ++ "refused"⟩]) ∧
    envBrokerFail.brokerResult = .raised (.otherError "refused") ∧
    (resourcesNoBroker.channel = none ∧ resourcesNoBroker.connection = none ∧
      (⟨.error, "RabbitMQ Connection Failed: " ++ PyError.msg (.otherError "refused")⟩ : LogEntry) ∈
        [(⟨.info, "MongoDB Connected!"⟩ : LogEntry),
         ⟨.error, "RabbitMQ Connection Failed: " ++ "refused"⟩]) ∧
    envChannelFail.brokerResult = .ok connChanFail ∧
    connChanFail.channelOutcome = some "channel refused" ∧
    (resourcesChanFail.channel = none ∧ resourcesChanFail.connection = some connChanFail ∧
      (⟨.error, "RabbitMQ Connection Failed: " ++ "channel refused"⟩ : LogEntry) ∈
        [(⟨.info, "MongoDB Connected!"⟩ : LogEntry),
         ⟨.error, "RabbitMQ Connection Failed: " ++ "channel refused"⟩]) ∧
    resourcesNoBroker.connection = none ∧
    AppResources.destroy resourcesNoBroker ≠ .raised (.brokerCloseError "refused") ∧
    resourcesNoBroker.database = some dbHandle ∧
    AppResources.destroy resourcesNoBroker =
      .ok [⟨.info, "MongoDB Connection Closed!"⟩,
           ⟨.warning, "RabbitMQ Connection object is None, skipping closing."⟩] :=
  ⟨rfl, rfl,
   (claim3_broker_failure_and_destroy.1 envBrokerFail resourcesNoBroker
     [⟨.info, "MongoDB Connected!"⟩,
      ⟨.error, "RabbitMQ Connection Failed: " ++ "refused"⟩] rfl).1
     (.otherError "refused") rfl,
   rfl, rfl,
   (claim3_broker_failure_and_destroy.1 envChannelFail resourcesChanFail
     [⟨.info, "MongoDB Connected!"⟩,
      ⟨.error, "RabbitMQ Connection Failed: " ++ "channel refused"⟩] rfl).2
     connChanFail "channel refused" rfl rfl,
   rfl,
   (claim3_broker_failure_and_destroy.2 resourcesNoBroker rfl).1 "refused",
   rfl,
   (claim3_broker_failure_and_destroy.2 resourcesNoBroker rfl).2 dbHandle rfl⟩

/-- Claim C4: `destroy` dereferences the database handle with no
guard: on any container whose database handle is unset it raises the
`NoneType` attribute fault, and that fault never occurs when the
handle is set. -/
theorem claim4_destroy_requires_database (resources : AppResources) :
    (resources.database = none →
      AppResources.destroy resources = .raised (.noneTypeAttributeError "client")) ∧
    (∀ db, resources.database = some db →
      ∀ a, AppResources.destroy resources ≠ .raised (.noneTypeAttributeError a)) := by
  constructor
  · intro h
    unfold AppResources.destroy
    rw [h]
  · intro db hdb a
    unfold AppResources.destroy
    rw [hdb]
    cases hc : resources.connection with
    | none => simp
    | some conn =>
        cases hco : conn.closeOutcome with
        | none => simp [hco]
        | some m => simp [hco]

/-- Claim C4, witness: the theorem applied to the freshly constructed
container, whose database handle is unset — exactly the state the
class method leaves after a database connection failure. -/
theorem claim4_witness :
    emptyResources.database = none ∧
    AppResources.destroy emptyResources =
      .raised (.noneTypeAttributeError "client") :=
  ⟨rfl, (claim4_destroy_requires_database emptyResources).1 rfl⟩

/-- Claim C6: whenever the container's class method itself raises, the
startup hook logs the exception and re-raises that same exception, so
startup aborts instead of proceeding with a half-built container. -/
theorem claim6_startup_reraises (env : Env) (e : PyError)
    (h : AppResources.init env = .raised e) :
    lifespanStartup env =
      ([⟨.error, "Error occurred while initializing the objects: " ++ PyError.msg e⟩],
       .raised e) := by
  unfold lifespanStartup
  rw [h]

/-- Claim C6, witness: the theorem applied to the environment whose
MongoDB attempt raises an exception that is not a `ConnectionFailure`,
which the class method propagates. -/
theorem claim6_witness :
    AppResources.init envFatal = .raised (.otherError "boom") ∧
    lifespanStartup envFatal =
      ([⟨.error, "Error occurred while initializing the objects: " ++
          PyError.msg (.otherError "boom")⟩],
       .raised (.otherError "boom")) :=
  ⟨rfl, claim6_startup_reraises envFatal (.otherError "boom") rfl⟩

end Upswing
